import Mathlib

/-!
Shallow embedding of the resilience core of the Polymarket 15-minute trading
bot: the circuit breaker and retry manager (`src/circuit_breaker.py`), the
retry policy and connection configuration (`src/connection_config.py`), and
the reconnect logic of the streaming connection manager
(`src/enhanced_websocket_manager.py`).

Wall-clock timestamps (Python `datetime.now()`) are modelled as rational
numbers passed explicitly to each operation that stamps or compares times;
`timedelta(seconds = s)` comparison becomes comparison of rational
differences.  Python floats (delays, backoffs) are modelled as rationals.
-/

namespace Spec2Proof

/-- `CircuitState` from `src/circuit_breaker.py`: CLOSED, OPEN, HALF_OPEN. -/
inductive CircuitState where
  | Closed
  | Open
  | HalfOpen
deriving DecidableEq, Repr

/-- The `CircuitBreaker` dataclass of `src/circuit_breaker.py` (lines 22-46):
configuration (`failure_threshold`, `timeout`), mutable state (`state`,
`failure_count`, `last_failure_time`, `last_success_time`) and lifetime
counters (`total_requests`, `total_failures`, `total_successes`). -/
structure CircuitBreaker where
  name : String
  failure_threshold : Nat
  timeout : ℚ
  state : CircuitState
  failure_count : Nat
  last_failure_time : Option ℚ
  last_success_time : Option ℚ
  total_requests : Nat
  total_failures : Nat
  total_successes : Nat
deriving DecidableEq, Repr

namespace CircuitBreaker

/-- `CircuitBreaker._should_attempt_reset` (lines 104-110): true when there is
no recorded failure, or the elapsed time since `last_failure_time` strictly
exceeds `timeout`. -/
def should_attempt_reset (cb : CircuitBreaker) (now : ℚ) : Bool :=
  match cb.last_failure_time with
  | none => true
  | some t => decide (now - t > cb.timeout)

/-- `CircuitBreaker.can_execute` (lines 48-67): always increments
`total_requests`; CLOSED admits, OPEN admits only when
`_should_attempt_reset` holds (then moves to HALF_OPEN), HALF_OPEN admits.
Returns the updated breaker together with the boolean answer. -/
def can_execute (cb : CircuitBreaker) (now : ℚ) : CircuitBreaker × Bool :=
  let cb := { cb with total_requests := cb.total_requests + 1 }
  match cb.state with
  | .Closed => (cb, true)
  | .Open =>
      if cb.should_attempt_reset now then
        ({ cb with state := .HalfOpen }, true)
      else
        (cb, false)
  | .HalfOpen => (cb, true)

/-- `CircuitBreaker.record_success` (lines 69-77): zero the failure counter,
stamp `last_success_time`, bump `total_successes`; HALF_OPEN moves to
CLOSED. -/
def record_success (cb : CircuitBreaker) (now : ℚ) : CircuitBreaker :=
  let cb := { cb with
    failure_count := 0
    last_success_time := some now
    total_successes := cb.total_successes + 1 }
  if cb.state = .HalfOpen then { cb with state := .Closed } else cb

/-- `CircuitBreaker.record_failure` (lines 79-102): bump `failure_count` and
`total_failures`, stamp `last_failure_time`; HALF_OPEN moves straight back to
OPEN, otherwise the breaker opens when the new count reaches the
threshold. -/
def record_failure (cb : CircuitBreaker) (now : ℚ) : CircuitBreaker :=
  let cb := { cb with
    failure_count := cb.failure_count + 1
    last_failure_time := some now
    total_failures := cb.total_failures + 1 }
  if cb.state = .HalfOpen then
    { cb with state := .Open }
  else if cb.failure_count ≥ cb.failure_threshold then
    { cb with state := .Open }
  else
    cb

/-- `CircuitBreaker.reset` (lines 112-116): force CLOSED and zero the failure
counter; nothing else is touched. -/
def reset (cb : CircuitBreaker) : CircuitBreaker :=
  { cb with state := .Closed, failure_count := 0 }

/-- `n` consecutive `record_failure` calls, the `i`-th stamped at time
`times i`. -/
def record_failures (cb : CircuitBreaker) (times : Nat → ℚ) : Nat → CircuitBreaker
  | 0 => cb
  | n + 1 => (cb.record_failures times n).record_failure (times n)

end CircuitBreaker

/-- A freshly constructed breaker as `CircuitBreaker(name)` builds it in
`src/circuit_breaker.py` (dataclass defaults; threshold and timeout come from
`CONNECTION_CONFIG`: 5 failures, 300 seconds). -/
def mkCircuitBreaker (name : String) : CircuitBreaker :=
  { name := name
    failure_threshold := 5
    timeout := 300
    state := .Closed
    failure_count := 0
    last_failure_time := none
    last_success_time := none
    total_requests := 0
    total_failures := 0
    total_successes := 0 }

/-- The `RetryPolicy` dataclass of `src/connection_config.py` (lines 58-64):
`max_attempts = 3`, `initial_delay = 1.0`, `max_delay = 60.0`,
`exponential_base = 2.0`. -/
structure RetryPolicy where
  max_attempts : Nat
  initial_delay : ℚ
  max_delay : ℚ
  exponential_base : ℚ
deriving DecidableEq, Repr

/-- `RetryPolicy()` with the dataclass defaults. -/
def defaultRetryPolicy : RetryPolicy :=
  { max_attempts := 3, initial_delay := 1, max_delay := 60, exponential_base := 2 }

/-- `RetryPolicy.get_delay` (lines 66-69):
`min(initial_delay * exponential_base ** attempt, max_delay)`. -/
def RetryPolicy.get_delay (p : RetryPolicy) (attempt : Nat) : ℚ :=
  min (p.initial_delay * p.exponential_base ^ attempt) p.max_delay

/-- The `ConnectionConfig` dataclass of `src/connection_config.py`
(lines 10-41), restricted to the fields the resilience core reads.  The
values are the dataclass defaults, which coincide with the fallback values
`from_env` passes to `os.getenv`. -/
structure ConnectionConfig where
  WS_MAX_RECONNECT_ATTEMPTS : Nat
  WS_INITIAL_BACKOFF : ℚ
  WS_MAX_BACKOFF : ℚ
  WS_HEALTH_CHECK_INTERVAL : Nat
  CIRCUIT_BREAKER_THRESHOLD : Nat
  CIRCUIT_BREAKER_TIMEOUT : ℚ
deriving DecidableEq, Repr

/-- `CONNECTION_CONFIG = ConnectionConfig.from_env()` evaluated with no
environment overrides: `WS_MAX_RECONNECT_ATTEMPTS = 10`,
`WS_INITIAL_BACKOFF = 2.0`, `WS_MAX_BACKOFF = 120.0`,
`WS_HEALTH_CHECK_INTERVAL = 20`, `CIRCUIT_BREAKER_THRESHOLD = 5`,
`CIRCUIT_BREAKER_TIMEOUT = 300`. -/
def CONNECTION_CONFIG : ConnectionConfig :=
  { WS_MAX_RECONNECT_ATTEMPTS := 10
    WS_INITIAL_BACKOFF := 2
    WS_MAX_BACKOFF := 120
    WS_HEALTH_CHECK_INTERVAL := 20
    CIRCUIT_BREAKER_THRESHOLD := 5
    CIRCUIT_BREAKER_TIMEOUT := 300 }

/-- One invocation of the operation handed to
`RetryManager.execute_with_retry` either returns a value, raises an exception
whose type is in `retryable_exceptions`, or raises any other exception.
Errors are carried as their message strings. -/
inductive OpOutcome (α : Type) where
  | ok (v : α)
  | retryable (e : String)
  | nonRetryable (e : String)
deriving DecidableEq, Repr

/-- The observable result of `RetryManager.execute_with_retry`: a returned
value, the locally raised "Circuit breaker is OPEN" exception (the spec's
`CircuitOpenError`), or a propagated operation exception. -/
inductive RetryResult (α : Type) where
  | ok (v : α)
  | circuitOpen (msg : String)
  | err (e : String)
deriving DecidableEq, Repr

/-- Everything one call to `execute_with_retry` does that the claims speak
about: its result, how many times it invoked the operation, the sequence of
`asyncio.sleep` delays it performed, how many times it called
`record_failure` / `record_success` on the attached breaker, and the
breaker's final state (`none` when no breaker is attached). -/
structure ExecTrace (α : Type) where
  result : RetryResult α
  invocations : Nat
  sleeps : List ℚ
  failuresRecorded : Nat
  successesRecorded : Nat
  breaker : Option CircuitBreaker
deriving Repr

/-- The `for attempt in range(self.policy.max_attempts)` loop of
`RetryManager.execute_with_retry` (`src/circuit_breaker.py` lines 188-226),
entered after the breaker admitted the call.  `remaining` counts the loop
iterations still to run (initially `max_attempts`), `attempt` is the current
loop index, `lastErr` the `last_exception` variable, and `inv`, `sleeps`,
`fr`, `sr` accumulate the trace.  A value returns after `record_success`; an
exception in `retryable_exceptions` is recorded with `record_failure` and, if
iterations remain, followed by a sleep of `get_delay(attempt)`; any other
exception propagates at once, uncaught, with no breaker recording and no
sleep.  When the loop ends, `last_exception` (or the generic message) is
raised. -/
def retryLoop {α : Type} (policy : RetryPolicy) (opName : String)
    (op : Nat → OpOutcome α) (now : ℚ) :
    Nat → Nat → Option String → Nat → List ℚ → Nat → Nat →
    Option CircuitBreaker → ExecTrace α
  | 0, _, lastErr, inv, sleeps, fr, sr, cb =>
      { result := match lastErr with
          | some e => .err e
          | none => .err (opName ++ ": All retry attempts failed")
        invocations := inv, sleeps := sleeps
        failuresRecorded := fr, successesRecorded := sr, breaker := cb }
  | remaining + 1, attempt, _, inv, sleeps, fr, sr, cb =>
      match op attempt with
      | .ok v =>
          { result := .ok v, invocations := inv + 1, sleeps := sleeps
            failuresRecorded := fr, successesRecorded := sr + 1
            breaker := cb.map (fun b => b.record_success now) }
      | .nonRetryable e =>
          { result := .err e, invocations := inv + 1, sleeps := sleeps
            failuresRecorded := fr, successesRecorded := sr, breaker := cb }
      | .retryable e =>
          let cb := cb.map (fun b => b.record_failure now)
          match remaining with
          | 0 =>
              { result := .err e, invocations := inv + 1, sleeps := sleeps
                failuresRecorded := fr + 1, successesRecorded := sr
                breaker := cb }
          | r + 1 =>
              retryLoop policy opName op now (r + 1) (attempt + 1) (some e)
                (inv + 1) (sleeps ++ [policy.get_delay attempt]) (fr + 1) sr cb

/-- `RetryManager.execute_with_retry` (`src/circuit_breaker.py` lines
155-226).  The operation is modelled as a function from the invocation index
to that invocation's outcome; `cb` is the optional attached circuit breaker.
If a breaker is attached and `can_execute()` is false the call raises the
"Circuit breaker is OPEN - refusing request" exception without invoking the
operation; otherwise the retry loop runs. -/
def execute_with_retry {α : Type} (policy : RetryPolicy)
    (cb : Option CircuitBreaker) (op : Nat → OpOutcome α)
    (opName : String) (now : ℚ) : ExecTrace α :=
  match cb with
  | some b =>
      let r := b.can_execute now
      if r.2 then
        retryLoop policy opName op now policy.max_attempts 0 none 0 [] 0 0 (some r.1)
      else
        { result := .circuitOpen (opName ++ ": Circuit breaker is OPEN - refusing request")
          invocations := 0, sleeps := [], failuresRecorded := 0
          successesRecorded := 0, breaker := some r.1 }
  | none =>
      retryLoop policy opName op now policy.max_attempts 0 none 0 [] 0 0 none

/-- `ConnectionState` from `src/enhanced_websocket_manager.py` (lines
14-21). -/
inductive ConnectionState where
  | DISCONNECTED
  | CONNECTING
  | CONNECTED
  | RECONNECTING
  | FAILED
  | CIRCUIT_OPEN
deriving DecidableEq, Repr

/-- The slice of `EnhancedWebSocketManager` state that its reconnect logic
reads and writes: `state` and `reconnect_attempts` (lines 53-54). -/
structure WSState where
  state : ConnectionState
  reconnect_attempts : Nat
deriving DecidableEq, Repr

/-- `EnhancedWebSocketManager._backoff_and_retry` (lines 254-277).  At or
above `WS_MAX_RECONNECT_ATTEMPTS` it sets the state to FAILED and returns
without sleeping; below the cap it computes
`min(WS_INITIAL_BACKOFF * 2 ** reconnect_attempts, WS_MAX_BACKOFF)`,
increments `reconnect_attempts`, and sleeps that long.  Returns the new
state together with the sleep performed, if any. -/
def backoff_and_retry (cfg : ConnectionConfig) (s : WSState) :
    WSState × Option ℚ :=
  if s.reconnect_attempts ≥ cfg.WS_MAX_RECONNECT_ATTEMPTS then
    ({ s with state := .FAILED }, none)
  else
    let backoff := min (cfg.WS_INITIAL_BACKOFF * 2 ^ s.reconnect_attempts)
      cfg.WS_MAX_BACKOFF
    ({ s with reconnect_attempts := s.reconnect_attempts + 1 }, some backoff)

/-- What one iteration of the `while True` loop in
`_stream_with_reconnect` did: the state it left behind, whether it called
`self.connect()`, and the sleeps it performed. -/
structure StreamIterResult where
  next : WSState
  connectAttempted : Bool
  sleeps : List ℚ
deriving DecidableEq, Repr

/-- One iteration of the `while True` body of
`EnhancedWebSocketManager._stream_with_reconnect` (lines 209-252), with the
environment abstracted: `connect` is the effect of `await self.connect()`
(its state change and boolean result) and `streamErr` says whether
`await self.stream_func()` raises (`some e`) or returns (`none`).

The body: in CIRCUIT_OPEN, sleep `CIRCUIT_BREAKER_TIMEOUT`, reset the
breaker, and continue without connecting; otherwise, when not CONNECTED,
call `connect()` and on failure run `_backoff_and_retry` and continue; when
a connection is (or becomes) available, run `stream_func` — a stream
exception sets state RECONNECTING and runs `_backoff_and_retry`. -/
def stream_iter (cfg : ConnectionConfig) (connect : WSState → WSState × Bool)
    (streamErr : Option String) (s : WSState) : StreamIterResult :=
  if s.state = .CIRCUIT_OPEN then
    { next := s, connectAttempted := false
      sleeps := [cfg.CIRCUIT_BREAKER_TIMEOUT] }
  else
    let afterConnect : Option WSState :=
      if s.state ≠ .CONNECTED then
        let r := connect s
        if r.2 then some r.1 else none
      else
        some s
    match afterConnect with
    | none =>
        let r := backoff_and_retry cfg (connect s).1
        { next := r.1, connectAttempted := true
          sleeps := r.2.toList }
    | some s1 =>
        match streamErr with
        | none =>
            { next := s1, connectAttempted := decide (s.state ≠ .CONNECTED)
              sleeps := [] }
        | some _ =>
            let r := backoff_and_retry cfg { s1 with state := .RECONNECTING }
            { next := r.1, connectAttempted := decide (s.state ≠ .CONNECTED)
              sleeps := r.2.toList }

/-! ## Circuit breaker lemmas -/

namespace CircuitBreaker

/-- A `record_failure` below the threshold, outside HALF_OPEN, only bumps the
counters and stamps the failure time. -/
theorem record_failure_closed_step (cb : CircuitBreaker) (now : ℚ)
    (hs : cb.state = .Closed)
    (h : cb.failure_count + 1 < cb.failure_threshold) :
    cb.record_failure now =
      { cb with
        failure_count := cb.failure_count + 1
        last_failure_time := some now
        total_failures := cb.total_failures + 1 } := by
  have h2 : ¬ (cb.failure_count + 1 ≥ cb.failure_threshold) := by omega
  simp [record_failure, hs, h2]

/-- A `record_failure` reaching the threshold, outside HALF_OPEN, opens the
breaker. -/
theorem record_failure_opens (cb : CircuitBreaker) (now : ℚ)
    (hs : cb.state ≠ .HalfOpen)
    (h : cb.failure_threshold ≤ cb.failure_count + 1) :
    cb.record_failure now =
      { cb with
        state := .Open
        failure_count := cb.failure_count + 1
        last_failure_time := some now
        total_failures := cb.total_failures + 1 } := by
  simp [record_failure, hs, h]

/-- A `record_success` outside HALF_OPEN zeroes the failure counter and
leaves the state alone. -/
theorem record_success_not_halfopen (cb : CircuitBreaker) (now : ℚ)
    (hs : cb.state ≠ .HalfOpen) :
    cb.record_success now =
      { cb with
        failure_count := 0
        last_success_time := some now
        total_successes := cb.total_successes + 1 } := by
  simp [record_success, hs]

/-- While the running failure count stays strictly below the threshold, a
CLOSED breaker stays CLOSED under `record_failures` and just accumulates the
count; threshold and timeout are untouched. -/
theorem record_failures_closed (cb : CircuitBreaker) (times : Nat → ℚ)
    (n : Nat) (hs : cb.state = .Closed)
    (hn : cb.failure_count + n < cb.failure_threshold) :
    (cb.record_failures times n).state = .Closed ∧
    (cb.record_failures times n).failure_count = cb.failure_count + n ∧
    (cb.record_failures times n).failure_threshold = cb.failure_threshold ∧
    (cb.record_failures times n).timeout = cb.timeout := by
  induction n with
  | zero => exact ⟨hs, rfl, rfl, rfl⟩
  | succ k ih =>
      obtain ⟨h1, h2, h3, h4⟩ := ih (by omega)
      have hstep := record_failure_closed_step (cb.record_failures times k)
        (times k) h1 (by omega)
      refine ⟨?_, ?_, ?_, ?_⟩ <;>
        simp [record_failures, hstep, h1, h2, h3, h4] <;> omega

/-- An OPEN breaker whose last failure is within the timeout refuses
execution (and stays OPEN, merely counting the request). -/
theorem can_execute_open_refuses (cb : CircuitBreaker) (t0 t : ℚ)
    (hs : cb.state = .Open) (hl : cb.last_failure_time = some t0)
    (ht : t - t0 ≤ cb.timeout) :
    cb.can_execute t =
      ({ cb with total_requests := cb.total_requests + 1 }, false) := by
  simp [can_execute, hs, should_attempt_reset, hl]
  linarith

end CircuitBreaker

/-! ## Claim theorems: circuit breaker -/

/-- C3: starting from CLOSED with `failure_count = 0`, a sequence of exactly
`failure_threshold` consecutive `record_failure` calls (at arbitrary times)
leaves the breaker OPEN, and a `can_execute` call made at any time `t` at
which at most `timeout` has elapsed since the last failure returns false. -/
theorem claim3_threshold_failures_open_and_refuse (cb : CircuitBreaker)
    (times : Nat → ℚ) (t : ℚ) (hs : cb.state = .Closed)
    (hc : cb.failure_count = 0) (hT : 1 ≤ cb.failure_threshold)
    (ht : t - times (cb.failure_threshold - 1) ≤ cb.timeout) :
    (cb.record_failures times cb.failure_threshold).state = .Open ∧
    ((cb.record_failures times cb.failure_threshold).can_execute t).2 = false := by
  obtain ⟨m, hm⟩ : ∃ m, cb.failure_threshold = m + 1 :=
    ⟨cb.failure_threshold - 1, by omega⟩
  obtain ⟨h1, h2, h3, h4⟩ := cb.record_failures_closed times m hs (by omega)
  have hstep := CircuitBreaker.record_failure_opens (cb.record_failures times m)
    (times m) (by simp [h1]) (by omega)
  have hfin : (cb.record_failures times cb.failure_threshold) =
      (cb.record_failures times m).record_failure (times m) := by
    rw [hm]; rfl
  have hopen : (cb.record_failures times cb.failure_threshold).state = .Open := by
    rw [hfin, hstep]
  refine ⟨hopen, ?_⟩
  have hlast : (cb.record_failures times cb.failure_threshold).last_failure_time
      = some (times m) := by
    rw [hfin, hstep]
  have htime : (cb.record_failures times cb.failure_threshold).timeout
      = cb.timeout := by
    rw [hfin, hstep]; exact h4
  have ht' : t - times m ≤ (cb.record_failures times cb.failure_threshold).timeout := by
    rw [htime]
    have : cb.failure_threshold - 1 = m := by omega
    rw [this] at ht
    exact ht
  rw [(cb.record_failures times cb.failure_threshold).can_execute_open_refuses
    (times m) t hopen hlast ht']

/-- C3 witness: a fresh breaker (threshold 5, timeout 300), five failures at
times 0,1,2,3,4, then `can_execute` at time 100. -/
theorem claim3_witness :
    ((mkCircuitBreaker "api").record_failures (fun i => (i : ℚ)) 5).state = .Open ∧
    (((mkCircuitBreaker "api").record_failures (fun i => (i : ℚ)) 5).can_execute 100).2
      = false := by
  have h := claim3_threshold_failures_open_and_refuse (mkCircuitBreaker "api")
    (fun i => (i : ℚ)) 100 rfl rfl (by decide) (by norm_num [mkCircuitBreaker])
  simpa [mkCircuitBreaker] using h

/-- C4: an OPEN breaker whose last failure lies strictly more than `timeout`
in the past admits the next `can_execute` call and moves to HALF_OPEN; and
any breaker in HALF_OPEN moves back to OPEN on a single `record_failure`,
whatever its failure count and threshold. -/
theorem claim4_open_ages_to_halfopen_and_halfopen_fails_to_open
    (cb cb2 : CircuitBreaker) (t0 now now2 : ℚ)
    (h1 : cb.state = .Open) (h2 : cb.last_failure_time = some t0)
    (h3 : now - t0 > cb.timeout) (h4 : cb2.state = .HalfOpen) :
    (cb.can_execute now).2 = true ∧
    (cb.can_execute now).1.state = .HalfOpen ∧
    (cb2.record_failure now2).state = .Open := by
  have hcond : cb.timeout < now - t0 := h3
  refine ⟨?_, ?_, ?_⟩
  · simp [CircuitBreaker.can_execute, h1, CircuitBreaker.should_attempt_reset, h2, hcond]
  · simp [CircuitBreaker.can_execute, h1, CircuitBreaker.should_attempt_reset, h2, hcond]
  · simp [CircuitBreaker.record_failure, h4]

/-- C4 witness: breaker OPEN since time 0 with timeout 300, probed at time
301; and a HALF_OPEN breaker with failure count 0 failing once at time 302. -/
theorem claim4_witness :
    (({ mkCircuitBreaker "api" with
        state := .Open, last_failure_time := some 0 }).can_execute 301).2 = true ∧
    (({ mkCircuitBreaker "api" with
        state := .Open, last_failure_time := some 0 }).can_execute 301).1.state
      = .HalfOpen ∧
    (({ mkCircuitBreaker "api" with
        state := .HalfOpen }).record_failure 302).state = .Open :=
  claim4_open_ages_to_halfopen_and_halfopen_fails_to_open
    { mkCircuitBreaker "api" with state := .Open, last_failure_time := some 0 }
    { mkCircuitBreaker "api" with state := .HalfOpen }
    0 301 302 rfl rfl (by norm_num [mkCircuitBreaker]) rfl

/-- C5: starting from CLOSED with `failure_count = 0`, any
`failure_threshold - 1` consecutive `record_failure` calls followed by one
`record_success` leave the breaker CLOSED with `failure_count = 0`. -/
theorem claim5_subthreshold_failures_then_success_closed (cb : CircuitBreaker)
    (times : Nat → ℚ) (now : ℚ) (hs : cb.state = .Closed)
    (hc : cb.failure_count = 0) (hT : 1 ≤ cb.failure_threshold) :
    ((cb.record_failures times (cb.failure_threshold - 1)).record_success now).state
      = .Closed ∧
    ((cb.record_failures times (cb.failure_threshold - 1)).record_success now).failure_count
      = 0 := by
  obtain ⟨h1, h2, h3, h4⟩ := cb.record_failures_closed times
    (cb.failure_threshold - 1) hs (by omega)
  have hstep := CircuitBreaker.record_success_not_halfopen
    (cb.record_failures times (cb.failure_threshold - 1)) now (by simp [h1])
  rw [hstep]
  exact ⟨h1, rfl⟩

/-- C5 witness: a fresh breaker (threshold 5), four failures at times
0,1,2,3, one success at time 10. -/
theorem claim5_witness :
    (((mkCircuitBreaker "api").record_failures (fun i => (i : ℚ)) 4).record_success 10).state
      = .Closed ∧
    (((mkCircuitBreaker "api").record_failures (fun i => (i : ℚ)) 4).record_success 10).failure_count
      = 0 := by
  have h := claim5_subthreshold_failures_then_success_closed
    (mkCircuitBreaker "api") (fun i => (i : ℚ)) 10 rfl rfl (by decide)
  simpa [mkCircuitBreaker] using h

/-- C10: `reset()` forces CLOSED and zeroes `failure_count`, leaving
`total_requests`, `total_successes`, `total_failures`, `last_failure_time`
and `last_success_time` unchanged — for every breaker, in every state. -/
theorem claim10_reset_frame (cb : CircuitBreaker) :
    cb.reset.state = .Closed ∧
    cb.reset.failure_count = 0 ∧
    cb.reset.total_requests = cb.total_requests ∧
    cb.reset.total_successes = cb.total_successes ∧
    cb.reset.total_failures = cb.total_failures ∧
    cb.reset.last_failure_time = cb.last_failure_time ∧
    cb.reset.last_success_time = cb.last_success_time := by
  simp [CircuitBreaker.reset]

/-! ## Retry loop step lemmas -/

/-- A retryable failure with iterations to spare: `record_failure`, sleep
`get_delay(attempt)`, move to the next attempt. -/
theorem retryLoop_step_retryable {α : Type} (policy : RetryPolicy)
    (opName : String) (op : Nat → OpOutcome α) (now : ℚ) (r attempt : Nat)
    (lastErr : Option String) (inv : Nat) (sleeps : List ℚ) (fr sr : Nat)
    (cb : Option CircuitBreaker) (e : String)
    (he : op attempt = .retryable e) :
    retryLoop policy opName op now (r + 2) attempt lastErr inv sleeps fr sr cb =
      retryLoop policy opName op now (r + 1) (attempt + 1) (some e) (inv + 1)
        (sleeps ++ [policy.get_delay attempt]) (fr + 1) sr
        (cb.map fun b => b.record_failure now) := by
  rw [retryLoop.eq_3, he]

/-- A successful invocation: `record_success` and return the value. -/
theorem retryLoop_step_ok {α : Type} (policy : RetryPolicy) (opName : String)
    (op : Nat → OpOutcome α) (now : ℚ) (r attempt : Nat)
    (lastErr : Option String) (inv : Nat) (sleeps : List ℚ) (fr sr : Nat)
    (cb : Option CircuitBreaker) (v : α) (he : op attempt = .ok v) :
    retryLoop policy opName op now (r + 1) attempt lastErr inv sleeps fr sr cb =
      { result := .ok v, invocations := inv + 1, sleeps := sleeps
        failuresRecorded := fr, successesRecorded := sr + 1
        breaker := cb.map fun b => b.record_success now } := by
  rw [retryLoop.eq_3, he]

/-- A non-retryable exception propagates at once: no breaker recording, no
sleep, no further attempt. -/
theorem retryLoop_step_fatal {α : Type} (policy : RetryPolicy) (opName : String)
    (op : Nat → OpOutcome α) (now : ℚ) (r attempt : Nat)
    (lastErr : Option String) (inv : Nat) (sleeps : List ℚ) (fr sr : Nat)
    (cb : Option CircuitBreaker) (e : String)
    (he : op attempt = .nonRetryable e) :
    retryLoop policy opName op now (r + 1) attempt lastErr inv sleeps fr sr cb =
      { result := .err e, invocations := inv + 1, sleeps := sleeps
        failuresRecorded := fr, successesRecorded := sr, breaker := cb } := by
  rw [retryLoop.eq_3, he]

/-! ## Claim theorems: retry manager -/

/-- C1, counterexample to the recording part: a breaker-attached
`execute_with_retry` call whose operation always raises a non-retryable
error invokes the operation once, sleeps never, and propagates the error —
but `record_failure` is called zero times and the breaker's failure count is
left at 0, where the claim asserts `record_failure` is called. -/
theorem claim1_counterexample :
    (execute_with_retry (α := Unit) defaultRetryPolicy
      (some (mkCircuitBreaker "api"))
      (fun _ => OpOutcome.nonRetryable "auth failure") "op" 0).invocations = 1 ∧
    (execute_with_retry (α := Unit) defaultRetryPolicy
      (some (mkCircuitBreaker "api"))
      (fun _ => OpOutcome.nonRetryable "auth failure") "op" 0).sleeps = [] ∧
    (execute_with_retry (α := Unit) defaultRetryPolicy
      (some (mkCircuitBreaker "api"))
      (fun _ => OpOutcome.nonRetryable "auth failure") "op" 0).result
      = .err "auth failure" ∧
    (execute_with_retry (α := Unit) defaultRetryPolicy
      (some (mkCircuitBreaker "api"))
      (fun _ => OpOutcome.nonRetryable "auth failure") "op" 0).failuresRecorded
      = 0 ∧
    ((execute_with_retry (α := Unit) defaultRetryPolicy
      (some (mkCircuitBreaker "api"))
      (fun _ => OpOutcome.nonRetryable "auth failure") "op" 0).breaker.map
        CircuitBreaker.failure_count) = some 0 :=
  ⟨rfl, rfl, rfl, rfl, rfl⟩

/-- C1 amended: with a breaker attached and admitting the call and
`max_attempts ≥ 1`, an operation that always raises a non-retryable error is
invoked exactly once; the error propagates immediately with no sleep and no
retry, and `record_failure` is never called on the breaker. -/
theorem claim1_nonretryable_invoked_once {α : Type} (policy : RetryPolicy)
    (cb : CircuitBreaker) (op : Nat → OpOutcome α) (e : Nat → String)
    (opName : String) (now : ℚ) (hA : 1 ≤ policy.max_attempts)
    (hcan : (cb.can_execute now).2 = true)
    (hop : ∀ n, op n = .nonRetryable (e n)) :
    (execute_with_retry policy (some cb) op opName now).invocations = 1 ∧
    (execute_with_retry policy (some cb) op opName now).sleeps = [] ∧
    (execute_with_retry policy (some cb) op opName now).result = .err (e 0) ∧
    (execute_with_retry policy (some cb) op opName now).failuresRecorded = 0 := by
  obtain ⟨m, hm⟩ : ∃ m, policy.max_attempts = m + 1 :=
    ⟨policy.max_attempts - 1, by omega⟩
  simp only [execute_with_retry, hcan, if_true, hm]
  rw [retryLoop_step_fatal policy opName op now m 0 none 0 [] 0 0
    (some (cb.can_execute now).1) (e 0) (hop 0)]
  exact ⟨rfl, rfl, rfl, rfl⟩

/-- C1 amended, witness: default policy (3 attempts), fresh CLOSED breaker,
operation always failing with a non-retryable "auth failure". -/
theorem claim1_witness :
    (execute_with_retry (α := Unit) defaultRetryPolicy
      (some (mkCircuitBreaker "api"))
      (fun _ => OpOutcome.nonRetryable "auth failure") "op" 0).invocations = 1 ∧
    (execute_with_retry (α := Unit) defaultRetryPolicy
      (some (mkCircuitBreaker "api"))
      (fun _ => OpOutcome.nonRetryable "auth failure") "op" 0).sleeps = [] ∧
    (execute_with_retry (α := Unit) defaultRetryPolicy
      (some (mkCircuitBreaker "api"))
      (fun _ => OpOutcome.nonRetryable "auth failure") "op" 0).result
      = .err "auth failure" ∧
    (execute_with_retry (α := Unit) defaultRetryPolicy
      (some (mkCircuitBreaker "api"))
      (fun _ => OpOutcome.nonRetryable "auth failure") "op" 0).failuresRecorded
      = 0 :=
  claim1_nonretryable_invoked_once defaultRetryPolicy (mkCircuitBreaker "api")
    (fun _ => OpOutcome.nonRetryable "auth failure") (fun _ => "auth failure")
    "op" 0 (by decide) rfl (fun _ => rfl)

/-- C6: when the attached breaker's `can_execute` answers false,
`execute_with_retry` raises the "Circuit breaker is OPEN - refusing request"
exception prefixed with the operation name, and the operation is never
invoked (the only breaker change is `can_execute`'s own request count). -/
theorem claim6_circuit_open_rejects {α : Type} (policy : RetryPolicy)
    (cb : CircuitBreaker) (op : Nat → OpOutcome α) (opName : String) (now : ℚ)
    (hdeny : (cb.can_execute now).2 = false) :
    execute_with_retry policy (some cb) op opName now =
      { result := .circuitOpen
          (opName ++ ": Circuit breaker is OPEN - refusing request")
        invocations := 0, sleeps := [], failuresRecorded := 0
        successesRecorded := 0, breaker := some (cb.can_execute now).1 } := by
  simp [execute_with_retry, hdeny]

/-- C6 witness: a breaker opened at time 0 with timeout 300, probed at time
10. -/
theorem claim6_witness :
    execute_with_retry (α := Unit) defaultRetryPolicy
      (some { mkCircuitBreaker "api" with
              state := .Open, last_failure_time := some 0 })
      (fun _ => OpOutcome.ok ()) "fetch" 10 =
      { result := .circuitOpen "fetch: Circuit breaker is OPEN - refusing request"
        invocations := 0, sleeps := [], failuresRecorded := 0
        successesRecorded := 0
        breaker := some (({ mkCircuitBreaker "api" with
          state := .Open, last_failure_time := some 0 }).can_execute 10).1 } :=
  claim6_circuit_open_rejects defaultRetryPolicy
    { mkCircuitBreaker "api" with state := .Open, last_failure_time := some 0 }
    (fun _ => OpOutcome.ok ()) "fetch" 10
    (by rw [CircuitBreaker.can_execute_open_refuses _ 0 10 rfl rfl
      (by norm_num [mkCircuitBreaker])])

/-- C7: with `max_attempts ≥ 3` and an admitting breaker, an operation that
raises a retryable error on invocations 0 and 1 and succeeds on invocation 2
is invoked exactly three times, and `execute_with_retry` returns that third
invocation's value. -/
theorem claim7_fail_fail_succeed_three_invocations {α : Type}
    (policy : RetryPolicy) (cb : CircuitBreaker) (op : Nat → OpOutcome α)
    (v : α) (e0 e1 : String) (opName : String) (now : ℚ)
    (hA : 3 ≤ policy.max_attempts)
    (hcan : (cb.can_execute now).2 = true)
    (h0 : op 0 = .retryable e0) (h1 : op 1 = .retryable e1)
    (h2 : op 2 = .ok v) :
    (execute_with_retry policy (some cb) op opName now).invocations = 3 ∧
    (execute_with_retry policy (some cb) op opName now).result = .ok v := by
  obtain ⟨m, hm⟩ : ∃ m, policy.max_attempts = (m + 1) + 2 :=
    ⟨policy.max_attempts - 3, by omega⟩
  simp only [execute_with_retry, hcan, if_true, hm]
  rw [retryLoop_step_retryable policy opName op now (m + 1) 0 none 0 [] 0 0
    (some (cb.can_execute now).1) e0 h0]
  simp only [Nat.zero_add, List.nil_append, Option.map_some']
  rw [show m + 1 + 1 = m + 2 by omega]
  rw [retryLoop_step_retryable policy opName op now m 1 (some e0) 1
    [policy.get_delay 0] 1 0 _ e1 h1]
  simp only [List.cons_append, List.nil_append, Option.map_some', Nat.reduceAdd]
  rw [retryLoop_step_ok policy opName op now m 2 (some e1) 2 _ 2 0 _ v h2]
  exact ⟨rfl, rfl⟩

/-- C7 witness: default policy (3 attempts), fresh CLOSED breaker, operation
timing out twice then returning 42. -/
theorem claim7_witness :
    (execute_with_retry defaultRetryPolicy (some (mkCircuitBreaker "api"))
      (fun n => if n = 0 then OpOutcome.retryable "timeout 1"
        else if n = 1 then OpOutcome.retryable "timeout 2"
        else OpOutcome.ok 42) "op" 0).invocations = 3 ∧
    (execute_with_retry defaultRetryPolicy (some (mkCircuitBreaker "api"))
      (fun n => if n = 0 then OpOutcome.retryable "timeout 1"
        else if n = 1 then OpOutcome.retryable "timeout 2"
        else OpOutcome.ok 42) "op" 0).result = .ok 42 :=
  claim7_fail_fail_succeed_three_invocations defaultRetryPolicy
    (mkCircuitBreaker "api")
    (fun n => if n = 0 then OpOutcome.retryable "timeout 1"
      else if n = 1 then OpOutcome.retryable "timeout 2"
      else OpOutcome.ok 42)
    42 "timeout 1" "timeout 2" "op" 0 (by decide) rfl rfl rfl rfl

/-! ## Claim theorems: retry policy delay -/

/-- C8, counterexample to `delay(0) = initialDelay`: the policy with
`initial_delay = 100` and `max_delay = 60` satisfies all the claim's
hypotheses (`max_attempts ≥ 1`, `initial_delay ≥ 0`,
`exponential_base > 1`), yet `get_delay 0 = 60 ≠ 100`. -/
theorem claim8_counterexample :
    1 ≤ (RetryPolicy.mk 3 100 60 2).max_attempts ∧
    0 ≤ (RetryPolicy.mk 3 100 60 2).initial_delay ∧
    1 < (RetryPolicy.mk 3 100 60 2).exponential_base ∧
    (RetryPolicy.mk 3 100 60 2).get_delay 0
      ≠ (RetryPolicy.mk 3 100 60 2).initial_delay := by
  refine ⟨by norm_num, by norm_num, by norm_num, ?_⟩
  norm_num [RetryPolicy.get_delay]

/-- C8 amended: assuming additionally `initial_delay ≤ max_delay` (true of
every policy the repository constructs), `get_delay attempt` equals
`min(initial_delay * exponential_base ^ attempt, max_delay)`, is
non-decreasing in `attempt`, never exceeds `max_delay`, and equals
`initial_delay` at attempt 0. -/
theorem claim8_delay_formula (p : RetryPolicy) (hA : 1 ≤ p.max_attempts)
    (h0 : 0 ≤ p.initial_delay) (hb : 1 < p.exponential_base)
    (hle : p.initial_delay ≤ p.max_delay) :
    (∀ attempt : Nat, p.get_delay attempt =
      min (p.initial_delay * p.exponential_base ^ attempt) p.max_delay) ∧
    (∀ a b : Nat, a ≤ b → p.get_delay a ≤ p.get_delay b) ∧
    (∀ attempt : Nat, p.get_delay attempt ≤ p.max_delay) ∧
    p.get_delay 0 = p.initial_delay := by
  refine ⟨fun _ => rfl, ?_, fun _ => min_le_right _ _, ?_⟩
  · intro a b hab
    have hpow : p.exponential_base ^ a ≤ p.exponential_base ^ b :=
      pow_le_pow_right₀ (le_of_lt hb) hab
    exact min_le_min (mul_le_mul_of_nonneg_left hpow h0) le_rfl
  · simp [RetryPolicy.get_delay, min_eq_left hle]

/-- C8 amended, witness: the repository's default policy
(1s initial, 60s cap, base 2): `get_delay 0 = 1` and `get_delay 7 ≤ 60`. -/
theorem claim8_witness :
    defaultRetryPolicy.get_delay 0 = defaultRetryPolicy.initial_delay ∧
    defaultRetryPolicy.get_delay 7 ≤ defaultRetryPolicy.max_delay :=
  ⟨(claim8_delay_formula defaultRetryPolicy (by norm_num [defaultRetryPolicy])
      (by norm_num [defaultRetryPolicy]) (by norm_num [defaultRetryPolicy])
      (by norm_num [defaultRetryPolicy])).2.2.2,
    (claim8_delay_formula defaultRetryPolicy (by norm_num [defaultRetryPolicy])
      (by norm_num [defaultRetryPolicy]) (by norm_num [defaultRetryPolicy])
      (by norm_num [defaultRetryPolicy])).2.2.1 7⟩

/-! ## Claim theorems: connection manager reconnect logic -/

/-- C2: the FAILED state is not terminal.  Evaluated at the failing input —
default configuration (cap 10), a manager that has already used its 10
reconnect attempts, a `connect()` that fails (setting FAILED, as `connect`
does on exception) — `_backoff_and_retry` sets the state to FAILED and
returns without sleeping, and the very next iteration of the `while True`
loop in `_stream_with_reconnect` nevertheless calls `self.connect()` again:
the loop keeps issuing connect attempts (now with no backoff at all) instead
of stopping. -/
theorem claim2_failed_state_not_terminal :
    (backoff_and_retry CONNECTION_CONFIG
      { state := .RECONNECTING, reconnect_attempts := 10 }).1.state = .FAILED ∧
    (backoff_and_retry CONNECTION_CONFIG
      { state := .RECONNECTING, reconnect_attempts := 10 }).2 = none ∧
    (stream_iter CONNECTION_CONFIG
      (fun t => ({ t with state := .FAILED }, false)) none
      (backoff_and_retry CONNECTION_CONFIG
        { state := .RECONNECTING, reconnect_attempts := 10 }).1).connectAttempted
      = true :=
  ⟨rfl, rfl, rfl⟩

/-- C9, counterexample to the stated defaults: the repository's default
configuration has `WS_INITIAL_BACKOFF = 2.0` and `WS_MAX_BACKOFF = 120.0`,
not 1s and 60s. -/
theorem claim9_counterexample :
    CONNECTION_CONFIG.WS_INITIAL_BACKOFF ≠ 1 ∧
    CONNECTION_CONFIG.WS_MAX_BACKOFF ≠ 60 ∧
    CONNECTION_CONFIG.WS_INITIAL_BACKOFF = 2 ∧
    CONNECTION_CONFIG.WS_MAX_BACKOFF = 120 := by
  refine ⟨?_, ?_, rfl, rfl⟩ <;> norm_num [CONNECTION_CONFIG]

/-- C9 amended: on the `n`-th reconnect cycle (`n ≥ 1`, entered with
`reconnect_attempts = n - 1`, below the cap), `_backoff_and_retry` sleeps
exactly `min(WS_INITIAL_BACKOFF * 2 ^ (n - 1), WS_MAX_BACKOFF)` before the
loop's next `connect()` call and leaves `reconnect_attempts = n`; the
default configuration values are `WS_INITIAL_BACKOFF = 2` seconds and
`WS_MAX_BACKOFF = 120` seconds (not 1s/60s). -/
theorem claim9_backoff_formula (cfg : ConnectionConfig) (s : WSState)
    (n : Nat) (hn : 1 ≤ n) (hs : s.reconnect_attempts = n - 1)
    (hcap : n - 1 < cfg.WS_MAX_RECONNECT_ATTEMPTS) :
    (backoff_and_retry cfg s).2 =
      some (min (cfg.WS_INITIAL_BACKOFF * 2 ^ (n - 1)) cfg.WS_MAX_BACKOFF) ∧
    (backoff_and_retry cfg s).1.reconnect_attempts = n ∧
    CONNECTION_CONFIG.WS_INITIAL_BACKOFF = 2 ∧
    CONNECTION_CONFIG.WS_MAX_BACKOFF = 120 := by
  have hlt : ¬ (cfg.WS_MAX_RECONNECT_ATTEMPTS ≤ n - 1) := by omega
  refine ⟨?_, ?_, rfl, rfl⟩ <;> simp [backoff_and_retry, hs, hlt] <;> omega

/-- C9 amended, witness: default configuration, first reconnect cycle
(`n = 1`, entered with `reconnect_attempts = 0`): the sleep is
`min(2 * 2^0, 120) = 2` seconds. -/
theorem claim9_witness :
    (backoff_and_retry CONNECTION_CONFIG
      { state := .RECONNECTING, reconnect_attempts := 0 }).2 =
      some (min (CONNECTION_CONFIG.WS_INITIAL_BACKOFF * 2 ^ (1 - 1))
        CONNECTION_CONFIG.WS_MAX_BACKOFF) ∧
    (backoff_and_retry CONNECTION_CONFIG
      { state := .RECONNECTING, reconnect_attempts := 0 }).1.reconnect_attempts
      = 1 ∧
    CONNECTION_CONFIG.WS_INITIAL_BACKOFF = 2 ∧
    CONNECTION_CONFIG.WS_MAX_BACKOFF = 120 :=
  claim9_backoff_formula CONNECTION_CONFIG
    { state := .RECONNECTING, reconnect_attempts := 0 } 1
    (by decide) rfl (by decide)

end Spec2Proof
